import Mathlib

/-!
Shallow embedding of `src/src/lib.rs` (typed-html-yew-example): a yew
single-page search interface over "template" records. The behavioral core is
the `Model` component: its message type (`Option Msg`), its `update` reducer,
the `search` request builder with its response callback, and the `view`
renderer (header row from `TABLE_FIELDS`, one body row per table entry).

Service handles held by the Rust struct (`ConsoleService`, `FetchService`,
`ComponentLink`) are effect channels, not data; their observable effects
(log lines, whether a fetch was issued, the freshly created fetch task) are
made explicit in the `UpdateOutcome` record returned by `Model.update`.
-/

namespace TemplateSearch

/-- Source struct `OrbitTemplate`: one catalog record, all display strings. -/
structure OrbitTemplate where
  id : String
  matter : String
  brand : String
  language : String
  medium : String
  subject : String
  body : String
  created_at : String
  changed_at : String
  mime_type : String
deriving Repr, DecidableEq

/-- Source struct `QueryResult`: one decoded result page. -/
structure QueryResult where
  objects : List OrbitTemplate
  page : Int
  per_page : Int
  num_results : Int
deriving Repr, DecidableEq

/-- Source struct `Query`: the five optional filter fields. -/
structure Query where
  matter : Option String := none
  language : Option String := none
  brand : Option String := none
  medium : Option String := none
  mime_type : Option String := none
deriving Repr, DecidableEq

/-- Source enum `FilterUpdate` (the `Langauge` spelling is the source's). -/
inductive FilterUpdate where
  | Matter (s : Option String)
  | Langauge (s : Option String)
  | Brand (s : Option String)
  | Medium (s : Option String)
  | MimeType (s : Option String)
deriving Repr, DecidableEq

/-- Source method `Query::update`: replace the targeted field. The Rust
method mutates `self`; embedded as a function returning the new `Query`. -/
def Query.update (q : Query) : FilterUpdate → Query
  | .Matter s => { q with matter := s }
  | .Langauge s => { q with language := s }
  | .Brand s => { q with brand := s }
  | .Medium s => { q with medium := s }
  | .MimeType s => { q with mime_type := s }

/-- The five filter fields, for stating per-field properties. -/
inductive Field where
  | Matter
  | Language
  | Brand
  | Medium
  | MimeType
deriving Repr, DecidableEq

/-- Projection of a `Query` at a named field. -/
def Query.get (q : Query) : Field → Option String
  | .Matter => q.matter
  | .Language => q.language
  | .Brand => q.brand
  | .Medium => q.medium
  | .MimeType => q.mime_type

/-- The field a `FilterUpdate` targets. -/
def FilterUpdate.target : FilterUpdate → Field
  | .Matter _ => .Matter
  | .Langauge _ => .Language
  | .Brand _ => .Brand
  | .Medium _ => .Medium
  | .MimeType _ => .MimeType

/-- The new value a `FilterUpdate` carries. -/
def FilterUpdate.value : FilterUpdate → Option String
  | .Matter s => s
  | .Langauge s => s
  | .Brand s => s
  | .Medium s => s
  | .MimeType s => s

/-- Build the `FilterUpdate` constructor for a named field, as the `view`
closures do (`move |val| Some(FilterUpdate::Matter(val))`, etc.). -/
def mkUpdate : Field → Option String → FilterUpdate
  | .Matter, s => .Matter s
  | .Language, s => .Langauge s
  | .Brand, s => .Brand s
  | .Medium, s => .Medium s
  | .MimeType, s => .MimeType s

/-- Source enum `Msg`. -/
inductive Msg where
  | QueryFilterUpdate (filter : FilterUpdate)
  | SearchAction
  | SearchResults (result : QueryResult)
deriving Repr, DecidableEq

/-- Source impl `From<FilterUpdate> for Msg`. -/
def Msg.fromFilterUpdate (filter : FilterUpdate) : Msg :=
  Msg.QueryFilterUpdate filter

/-- A `yew` `FetchTask` handle, opaque to the component: the source only ever
stores it or overwrites it. Embedded as a tagged handle. -/
structure FetchTask where
  handle : Nat
deriving Repr, DecidableEq

/-- The data fields of the source's `Model` struct: `query`, `ft`, `table`.
The remaining fields (`console`, `fetch_service`, `link`) are service handles
whose effects `Model.update` reports explicitly in its `UpdateOutcome`. -/
structure Model where
  query : Query
  ft : Option FetchTask
  table : List OrbitTemplate
deriving Repr, DecidableEq

/-- The spec's `pending` flag ("true while a search is in flight", the
"transport lifecycle flag"): the source's only such state is whether a fetch
task handle is stored in `ft`. -/
def Model.pending (m : Model) : Bool :=
  m.ft.isSome

/-- Source `Model::create`: default query, no fetch task, empty table. -/
def Model.create : Model :=
  { query := {}, ft := none, table := [] }

/-- The HTTP request built by `Model::search`: method, URI, and body
(`Nothing`, embedded as `none`). -/
structure Request where
  method : String
  uri : String
  body : Option String
deriving Repr, DecidableEq

/-- The request `Model::search` builds, from the source: an unconditional
unfiltered GET to the fixed URI with empty body. `search` takes the whole
model (`&mut self`) but reads none of the filter fields when building it. -/
def Model.search_request (_m : Model) : Request :=
  { method := "GET", uri := "http://foo.bar:4848/templates", body := none }

/-- Predicate `meta.status.is_success()` from the `http` crate: a 2xx status. -/
def StatusCode.is_success (status : Nat) : Bool :=
  200 ≤ status && status < 300

/-- The response callback registered by `Model::search`, from the source:
a non-success status yields no message; a decode failure yields no message;
a decoded body becomes `Msg::SearchResults`. The decode outcome
(`Result<QueryResult, Error>`) is embedded as `Except String QueryResult`. -/
def search_callback (status : Nat) (result : Except String QueryResult) :
    Option Msg :=
  if !(StatusCode.is_success status) then
    none
  else
    match result with
    | .ok body => some (Msg.SearchResults body)
    | .error _ => none

/-- One `ConsoleService::log` call, by which call site: the dump of the
incoming message, the dump of a received result page, or the dump of the
(post-transition) query. -/
inductive LogLine where
  | msgDump (msg : Msg)
  | resultDump (result : QueryResult)
  | queryDump (q : Query)
deriving Repr, DecidableEq

/-- Everything observable about one `Model::update` call: the new model state,
the returned `ShouldRender`, the console lines logged, and whether a fetch was
issued (i.e. `self.search()` ran inside `update`). -/
structure UpdateOutcome where
  model : Model
  shouldRender : Bool
  logs : List LogLine
  fetchIssued : Bool
deriving Repr, DecidableEq

/-- Source `Model::update`. `newTask` is the fresh `FetchTask` that
`self.search()` returns when (and only when) a fetch is issued. An absent
message falls through to `false` with no effect at all; a present message is
logged, dispatched, and the query is logged after the transition. -/
def Model.update (m : Model) (newTask : FetchTask) : Option Msg → UpdateOutcome
  | some msg =>
    let m1 : Model :=
      match msg with
      | .QueryFilterUpdate filter => { m with query := m.query.update filter }
      | .SearchAction => { m with ft := some newTask }
      | .SearchResults result => { m with table := result.objects }
    { model := m1
      shouldRender := true
      logs := [LogLine.msgDump msg]
        ++ (match msg with
            | .SearchResults result => [LogLine.resultDump result]
            | _ => [])
        ++ [LogLine.queryDump m1.query]
      fetchIssued :=
        match msg with
        | .SearchAction => true
        | _ => false }
  | none =>
    { model := m, shouldRender := false, logs := [], fetchIssued := false }

/-- Source constant `TABLE_FIELDS`: the header cell texts, in order. -/
def TABLE_FIELDS : List String :=
  ["Subject", "Brand", "Language", "Medium", "Matter", "MIME Type",
   "Created At", "Changed At", "Body", "Actions"]

/-- Type `ChangeData` from `yew`: the variants of a change event payload. The
source matches `Value(val)` and sends everything else to `None`. -/
inductive ChangeData where
  | Value (s : String)
  | Select
  | Files
deriving Repr, DecidableEq

/-- Source function `none_if_empty`. -/
def none_if_empty (s : String) : Option String :=
  if s.isEmpty then none else some s

/-- The `onchange` closure installed by `query_field`, from the source: a text
value is normalized by `none_if_empty`, passed to the field's filter factory,
and wrapped into `Msg::QueryFilterUpdate` (via `Into`); any non-text change
data produces no message. -/
def query_field_onchange
    (filter_factory : Option String → Option FilterUpdate) :
    ChangeData → Option Msg
  | .Value val => (filter_factory (none_if_empty val)).map Msg.fromFilterUpdate
  | .Select => none
  | .Files => none

/-- The filter factory `Model::view` passes to `query_field` for each field:
`move |val| Some(FilterUpdate::Matter(val))` and its four siblings. -/
def view_filter_factory (fld : Field) : Option String → Option FilterUpdate :=
  fun val => some (mkUpdate fld val)

/-- Source function `template_row`: the cell texts of one body row, in the
order the `<td>` elements are emitted. -/
def template_row (template : OrbitTemplate) : List String :=
  [template.subject, template.brand, template.language, template.medium,
   template.matter, template.mime_type, template.created_at,
   template.changed_at, template.body]

/-- The table part of `Model::view`, from the source: the `<thead>` row maps
`TABLE_FIELDS` to `<th>` cells, the `<tbody>` maps `self.table` through
`template_row`. -/
structure TableView where
  header : List String
  body : List (List String)
deriving Repr, DecidableEq

/-- The table `Model::view` renders for a given model state. -/
def Model.viewTable (m : Model) : TableView :=
  { header := TABLE_FIELDS, body := m.table.map template_row }

/-- The spec's canonical header list, stated from the spec's words
("Subject, Brand, Language, Medium, Matter, MIME Type, Created At,
Changed At, Body"), for comparison with the source's header. -/
def canonical_headers : List String :=
  ["Subject", "Brand", "Language", "Medium", "Matter", "MIME Type",
   "Created At", "Changed At", "Body"]

/-- A concrete catalog record, for concrete evaluations. -/
def rowA : OrbitTemplate :=
  { id := "1", matter := "glass", brand := "B", language := "en",
    medium := "email", subject := "S", body := "hello",
    created_at := "2020-01-01", changed_at := "2020-01-02",
    mime_type := "text/plain" }

/-- A concrete one-record result page. -/
def pageOne : QueryResult :=
  { objects := [rowA], page := 1, per_page := 10, num_results := 1 }

/-- A concrete empty result page. -/
def pageTwo : QueryResult :=
  { objects := [], page := 2, per_page := 10, num_results := 0 }

/-- A concrete fetch task handle. -/
def taskZero : FetchTask := { handle := 0 }

/-- A second concrete fetch task handle. -/
def taskOne : FetchTask := { handle := 1 }

/-- A third concrete fetch task handle. -/
def taskTwo : FetchTask := { handle := 2 }

/-- A concrete in-flight model: a stored fetch task and one displayed row. -/
def inFlightModel : Model :=
  { query := {}, ft := some taskZero, table := [rowA] }

/-- C5: `Query::update` (the spec's `apply`) sets exactly the targeted field to
the update's value, leaves every other field byte-identical, and is idempotent:
applying the same update twice equals applying it once. -/
theorem query_update_frame_and_idempotent (f : Query) (u : FilterUpdate) :
    (∀ X : Field, (f.update u).get X =
      if X = u.target then u.value else f.get X)
    ∧ (f.update u).update u = f.update u := by
  constructor
  · intro X
    cases u <;> cases X <;>
      simp [Query.update, Query.get, FilterUpdate.target, FilterUpdate.value]
  · cases u <;> simp [Query.update]

/-- C1, counterexample: from an in-flight state, processing
`SearchResults(page)` (the spec's `SearchSucceeded`) does NOT leave a state
whose pending flag is false: the stored fetch task is never cleared, so the
pending flag is still true afterwards. -/
theorem searchResults_pending_not_cleared_cex :
    inFlightModel.pending = true
    ∧ ((inFlightModel.update taskOne
        (some (Msg.SearchResults pageOne))).model.pending ≠ false) := by
  decide

/-- C1, amended: for every state with pending true and every result page,
processing `SearchResults(page)` yields a state whose rows are exactly
`page.objects`, and the event is always dirty; but the pending flag (the
stored fetch task) is left unchanged — still true — rather than cleared. -/
theorem searchResults_sets_rows_keeps_pending (m : Model) (t : FetchTask)
    (page : QueryResult) (h : m.pending = true) :
    (m.update t (some (Msg.SearchResults page))).model.table = page.objects
    ∧ (m.update t (some (Msg.SearchResults page))).model.ft = m.ft
    ∧ (m.update t (some (Msg.SearchResults page))).model.pending = true
    ∧ (m.update t (some (Msg.SearchResults page))).shouldRender = true := by
  refine ⟨rfl, rfl, ?_, rfl⟩
  simpa [Model.update, Model.pending] using h

/-- C1, witness: the amended theorem applied at the concrete in-flight model
and the concrete one-record page. -/
theorem searchResults_sets_rows_keeps_pending_witness :
    inFlightModel.pending = true
    ∧ ((inFlightModel.update taskOne
          (some (Msg.SearchResults pageOne))).model.table = pageOne.objects
       ∧ (inFlightModel.update taskOne
          (some (Msg.SearchResults pageOne))).model.ft = inFlightModel.ft
       ∧ (inFlightModel.update taskOne
          (some (Msg.SearchResults pageOne))).model.pending = true
       ∧ (inFlightModel.update taskOne
          (some (Msg.SearchResults pageOne))).shouldRender = true) :=
  ⟨by decide,
   searchResults_sets_rows_keeps_pending inFlightModel taskOne pageOne (by decide)⟩

/-- C2, counterexample: a failed search (here: server status 500) is delivered
to `update` as the absent message, and processing it from an in-flight state
neither resets the pending flag to false nor reports anything to the logging
collaborator — contrary to the claim. -/
theorem search_failure_not_logged_cex :
    search_callback 500 (Except.ok pageOne) = none
    ∧ inFlightModel.pending = true
    ∧ ((inFlightModel.update taskZero none).model.pending ≠ false)
    ∧ (inFlightModel.update taskZero none).logs = [] := by
  decide

/-- C2, amended: every failed search (non-success status or undecodable body)
resolves to the absent message; processing the absent message leaves the whole
model unchanged — rows preserved, but the pending flag also left as it was
rather than reset to false — produces no log output, triggers no re-render,
and issues no fetch, so no error is surfaced in the rendered view. -/
theorem search_failure_silent_noop (m : Model) (t : FetchTask) (status : Nat)
    (r : Except String QueryResult) (e : String)
    (hs : StatusCode.is_success status = false) :
    search_callback status r = none
    ∧ search_callback 200 (Except.error e) = none
    ∧ (m.update t none).model = m
    ∧ (m.update t none).logs = []
    ∧ (m.update t none).shouldRender = false
    ∧ (m.update t none).fetchIssued = false := by
  refine ⟨?_, rfl, rfl, rfl, rfl, rfl⟩
  simp [search_callback, hs]

/-- C2, witness: the amended theorem applied at status 500, a decode error
string, and the concrete in-flight model. -/
theorem search_failure_silent_noop_witness :
    StatusCode.is_success 500 = false
    ∧ (search_callback 500 (Except.error "boom") = none
       ∧ search_callback 200 (Except.error "boom") = none
       ∧ (inFlightModel.update taskOne none).model = inFlightModel
       ∧ (inFlightModel.update taskOne none).logs = []
       ∧ (inFlightModel.update taskOne none).shouldRender = false
       ∧ (inFlightModel.update taskOne none).fetchIssued = false) :=
  ⟨by decide,
   search_failure_silent_noop inFlightModel taskOne 500
     (Except.error "boom") "boom" (by decide)⟩

/-- C3, counterexample: the reduction is not free of I/O: processing
`SearchAction` issues the transport call inside `update`, and every present
message produces console log output inside `update`. -/
theorem update_performs_io_cex :
    (Model.create.update taskZero (some Msg.SearchAction)).fetchIssued = true
    ∧ (Model.create.update taskZero (some Msg.SearchAction)).logs ≠ [] := by
  decide

/-- C3, amended: `update` is a total deterministic function of the state, the
message, and the freshly issued fetch handle — for messages other than
`SearchAction` the outcome does not depend on the fresh handle at all — but it
is not side-effect-free: every present message is logged inside `update`
(together with the post-transition query), and `SearchAction` issues the
transport call inside `update` itself. -/
theorem update_deterministic_but_effectful (m : Model) (t t2 : FetchTask)
    (msg : Msg) (fu : FilterUpdate) (r : QueryResult) :
    (m.update t (some msg)).logs ≠ []
    ∧ ((m.update t (some msg)).fetchIssued = true ↔ msg = Msg.SearchAction)
    ∧ m.update t (some (Msg.QueryFilterUpdate fu)) =
        m.update t2 (some (Msg.QueryFilterUpdate fu))
    ∧ m.update t (some (Msg.SearchResults r)) =
        m.update t2 (some (Msg.SearchResults r)) := by
  refine ⟨?_, ?_, rfl, rfl⟩
  · cases msg <;> simp [Model.update]
  · cases msg <;> simp [Model.update]

/-- C4, counterexample: the rendered header is not the nine canonical column
names — the source's `TABLE_FIELDS` carries a tenth entry. -/
theorem header_not_nine_cex :
    Model.create.viewTable.header ≠ canonical_headers
    ∧ Model.create.viewTable.header.length = 10 := by
  decide

/-- C4, amended: for every state, the rendered header row consists of the nine
canonical column names in the stated order followed by one extra tenth column
named Actions. -/
theorem header_is_canonical_plus_actions (m : Model) :
    m.viewTable.header = canonical_headers ++ ["Actions"]
    ∧ m.viewTable.header.length = 10 :=
  ⟨rfl, rfl⟩

/-- C6: the rendered table body has exactly one row per entry of the model's
table, in the same order, and each row's cells are the corresponding record
fields verbatim in the stated column order. -/
theorem view_body_matches_rows (m : Model) :
    m.viewTable.body.length = m.table.length
    ∧ (∀ i, m.viewTable.body.get? i = (m.table.get? i).map template_row)
    ∧ m.viewTable.body = m.table.map (fun t =>
        [t.subject, t.brand, t.language, t.medium, t.matter, t.mime_type,
         t.created_at, t.changed_at, t.body]) := by
  refine ⟨by simp [Model.viewTable], ?_, rfl⟩
  intro i
  simp [Model.viewTable]

/-- Evaluation fact: normalizing the empty string yields the absent value. -/
theorem none_if_empty_empty : none_if_empty "" = none := rfl

/-- C7: a change event carrying the empty string for any of the five filter
fields produces a `FilterUpdate` carrying the absent value, never the empty
string, and applying that update stores the absent value in the field. -/
theorem empty_input_normalized_to_absent (fld : Field) (q : Query) :
    query_field_onchange (view_filter_factory fld) (ChangeData.Value "") =
      some (Msg.QueryFilterUpdate (mkUpdate fld none))
    ∧ (mkUpdate fld none).value = none
    ∧ (q.update (mkUpdate fld none)).get fld = none := by
  refine ⟨?_, ?_, ?_⟩ <;> cases fld <;>
    simp [query_field_onchange, view_filter_factory, none_if_empty_empty,
      Msg.fromFilterUpdate, mkUpdate, FilterUpdate.value, Query.update,
      Query.get]

/-- C8: the search operation builds the same request for every model state — a
GET to the fixed base URL plus the templates path, with empty body and no
query string — so no filter field value is serialized into the request. -/
theorem search_request_ignores_filters (m m2 : Model) :
    m.search_request =
      { method := "GET", uri := "http://foo.bar:4848/templates", body := none }
    ∧ m.search_request = m2.search_request
    ∧ m.search_request.uri.data.contains (Char.ofNat 63) = false := by
  refine ⟨rfl, rfl, ?_⟩
  show ("http://foo.bar:4848/templates" : String).data.contains
    (Char.ofNat 63) = false
  decide

/-- C9, counterexample: processing a search resolution does not overwrite the
pending state: from an in-flight model, `SearchResults` leaves the stored
fetch task exactly as it was, so the pending flag is not overwritten. -/
theorem resolution_keeps_pending_cex :
    inFlightModel.pending = true
    ∧ (inFlightModel.update taskOne
        (some (Msg.SearchResults pageOne))).model.ft = inFlightModel.ft
    ∧ ((inFlightModel.update taskOne
        (some (Msg.SearchResults pageOne))).model.pending ≠ false) := by
  decide

/-- C9, amended: triggering a search while one is pending unconditionally
issues a second request and overwrites the stored fetch handle with the new
one; each `SearchResults` resolution processed unconditionally overwrites the
rows, and when two resolutions are processed in sequence the last one
processed wins (a stale slower response may overwrite a fresher one) — but a
resolution leaves the pending flag and fetch handle unchanged rather than
overwriting them. -/
theorem concurrent_search_last_result_wins (m : Model) (t t2 : FetchTask)
    (r1 r2 : QueryResult) (_h : m.pending = true) :
    (m.update t (some Msg.SearchAction)).fetchIssued = true
    ∧ (m.update t (some Msg.SearchAction)).model.ft = some t
    ∧ (m.update t (some (Msg.SearchResults r1))).model.table = r1.objects
    ∧ ((m.update t (some (Msg.SearchResults r1))).model.update t2
        (some (Msg.SearchResults r2))).model.table = r2.objects
    ∧ (m.update t (some (Msg.SearchResults r1))).model.ft = m.ft :=
  ⟨rfl, rfl, rfl, rfl, rfl⟩

/-- C9, witness: the amended theorem applied at the concrete in-flight model,
two concrete fetch handles and two concrete result pages. -/
theorem concurrent_search_last_result_wins_witness :
    inFlightModel.pending = true
    ∧ ((inFlightModel.update taskOne (some Msg.SearchAction)).fetchIssued = true
       ∧ (inFlightModel.update taskOne
            (some Msg.SearchAction)).model.ft = some taskOne
       ∧ (inFlightModel.update taskOne
            (some (Msg.SearchResults pageOne))).model.table = pageOne.objects
       ∧ ((inFlightModel.update taskOne
            (some (Msg.SearchResults pageOne))).model.update taskTwo
            (some (Msg.SearchResults pageTwo))).model.table = pageTwo.objects
       ∧ (inFlightModel.update taskOne
            (some (Msg.SearchResults pageOne))).model.ft = inFlightModel.ft) :=
  ⟨by decide,
   concurrent_search_last_result_wins inFlightModel taskOne taskTwo
     pageOne pageTwo (by decide)⟩

/-- C10: the absent message — produced for a non-success response status, an
undecodable response body, or a change event that is not a text value —
returns false from `update` and leaves every model field unchanged, with no
log output and no fetch issued. -/
theorem absent_message_is_silent_noop (m : Model) (t : FetchTask)
    (status : Nat) (r : Except String QueryResult) (e : String)
    (ff : Option String → Option FilterUpdate)
    (hs : StatusCode.is_success status = false) :
    m.update t none =
      { model := m, shouldRender := false, logs := [], fetchIssued := false }
    ∧ search_callback status r = none
    ∧ search_callback 200 (Except.error e) = none
    ∧ query_field_onchange ff ChangeData.Select = none
    ∧ query_field_onchange ff ChangeData.Files = none := by
  refine ⟨rfl, ?_, rfl, rfl, rfl⟩
  simp [search_callback, hs]

/-- C10, witness: the theorem applied at status 404, a concrete decode error,
the default model, and the matter field's filter factory. -/
theorem absent_message_is_silent_noop_witness :
    StatusCode.is_success 404 = false
    ∧ (Model.create.update taskZero none =
        { model := Model.create, shouldRender := false, logs := [],
          fetchIssued := false }
       ∧ search_callback 404 (Except.error "bad json") = none
       ∧ search_callback 200 (Except.error "bad json") = none
       ∧ query_field_onchange (view_filter_factory Field.Matter)
           ChangeData.Select = none
       ∧ query_field_onchange (view_filter_factory Field.Matter)
           ChangeData.Files = none) :=
  ⟨by decide,
   absent_message_is_silent_noop Model.create taskZero 404
     (Except.error "bad json") "bad json"
     (view_filter_factory Field.Matter) (by decide)⟩

end TemplateSearch
